/-
Verification of the AutoAnalyzer scheduler
(src/main/analyze/auto_analyzer.py) against its natural-language
specification.

The development shallowly embeds the Python module:

* pure helpers (`score_to_cp`, `_snapshot_from_latest_infos`, and the
  per-budget reconciliation arithmetic of `_worker_loop` lines 334-346)
  become Lean functions over explicit data;
* the shared task slot mutated by `start_analayse` / `stop_analyze` /
  `quit` becomes a `Slot` value and pure state transitions
  (`threading.Event` objects become booleans in an append-only store
  indexed by task id: the constructor's event sits at index 0 and the
  event installed for task id `t` sits at index `t`);
* the two-thread system (submitter + worker loop) becomes a small-step
  transition function `step` over a global state `Sys`, driven by an
  action list that interleaves submitter calls with the worker's
  statement-level steps and resolves the nondeterminism of the engine
  (info arrival, spawn failure, engine death, budget expiry).

Deliberate abstractions, noted where they matter: wall-clock budget
durations are abstracted to a nondeterministic "budget elapsed" choice
(only the number of configured budgets is observable); the floating
point fields `confidence` and `time_used` of `MoveAnalysis` are omitted;
the `on_new_analysis` callback is assumed installed (publishing is
recorded in a ghost log rather than calling out).
-/
import Mathlib

namespace AutoAnalyzer

/-! ## Scores

`chess.engine` scores: a `PovScore` wraps a score relative to one side
(`turn`); `pov c` reads it from side `c`'s perspective, negating when
the sides differ. Mates negate their distance. -/

/-- An engine score: centipawns or mate-in-n (n signed; n ≤ 0 means the
point of view is being mated). -/
inductive Score where
  | cp (v : Int)
  | mateIn (n : Int)
deriving DecidableEq, Repr

/-- Negation of a score, as python-chess defines it on `Cp`/`Mate`. -/
def Score.neg : Score → Score
  | .cp v => .cp (-v)
  | .mateIn n => .mateIn (-n)

/-- A score relative to the side `turn`. -/
structure PovScore where
  relative : Score
  turn : Bool
deriving DecidableEq, Repr

/-- `PovScore.pov color`: the score from `color`'s perspective. -/
def PovScore.pov (s : PovScore) (color : Bool) : Score :=
  if s.turn = color then s.relative else s.relative.neg

/-- Embeds `score_to_cp(score, pov)` (auto_analyzer.py lines 57-72):
`None` maps to 0, a mate maps to ±100000 by the sign of the mate
distance, otherwise the centipawn value is returned.  (The `except`
branch around `score.pov` only fires for non-`PovScore` arguments,
which the analysis stream never produces.) -/
def score_to_cp (score : Option PovScore) (pov : Bool) : Int :=
  match score with
  | none => 0
  | some ps =>
    match ps.pov pov with
    | .mateIn m => if m > 0 then 100000 else -100000
    | .cp v => v

/-! ## Engine info dicts and the snapshot reconciler -/

/-- One raw info dict from the analysis stream: the fields the worker
reads.  `score := none` models a dict without a `score` key, `pv := []`
one without a `pv` key (both read through `dict.get` with those
defaults), `multipv := none` one without a `multipv` key. -/
structure Info where
  score : Option PovScore
  pv : List String
  multipv : Option Int
deriving DecidableEq, Repr

/-- One entry of the `pvs` list built by `_snapshot_from_latest_infos`:
`{"cp": cp, "pv": pv_moves}`. -/
structure PVEntry where
  cp : Int
  pv : List String
deriving DecidableEq, Repr

/-- Result quadruple of `_snapshot_from_latest_infos`. -/
structure Snapshot where
  pvs : List PVEntry
  best_cp : Int
  second_cp : Int
  played_cp : Option Int
deriving DecidableEq, Repr

/-- Embeds `_snapshot_from_latest_infos` (lines 208-236).  The dict
`latest_infos` keyed by multipv index becomes an association list; the
scan over `range(1, multipv + 1)` keeps ranks in ascending order, a
missing rank is skipped, an empty collection is replaced by the single
zero placeholder, `second_cp` falls back to `best_cp` when fewer than
two lines exist, and `played_cp` is the score of the first line whose
nonempty pv starts with the played move's UCI string. -/
def snapshotFromLatestInfos (multipv : Nat) (latest_infos : List (Nat × Info))
    (mover : Bool) (moveUci : String) : Snapshot :=
  let pvs0 : List PVEntry := (List.range' 1 multipv).filterMap fun idx =>
    match latest_infos.lookup idx with
    | none => none
    | some info => some ⟨score_to_cp info.score mover, info.pv⟩
  let pvs := if pvs0.isEmpty then [⟨0, []⟩] else pvs0
  let best_cp := (pvs.headD ⟨0, []⟩).cp
  let second_cp :=
    match pvs with
    | _ :: second :: _ => second.cp
    | _ => best_cp
  let played_cp := (pvs.find? fun e =>
    match e.pv with
    | [] => false
    | m :: _ => m == moveUci).map PVEntry.cp
  ⟨pvs, best_cp, second_cp, played_cp⟩

/-- The reconciled metrics the worker computes at the end of one budget
(lines 330-346) just before building a `MoveAnalysis`. -/
structure Recon where
  pvs : List PVEntry
  best_cp : Int
  second_cp : Int
  played_cp : Int
  delta_cp : Int
  best_gap : Int
  is_mate : Bool
deriving DecidableEq, Repr

/-- Embeds the per-budget reconciliation of `_worker_loop`
(lines 330-346).  `probe` is the outcome the quick probe of the
resulting position would deliver when issued: `some scoreOpt` stands
for `engine.analyse` returning an info whose `score` entry is
`scoreOpt`, `none` for the call raising (in which case the code sets
`played_cp = 0`).  The probe is consulted only when the played move
matched no snapshot line.  `delta = best_cp - played_cp` with no
clamping, `best_gap = best_cp - second_cp`, and
`mate = abs(played_cp) >= 100000`. -/
def reconcileStep (multipv : Nat) (latest_infos : List (Nat × Info))
    (mover : Bool) (moveUci : String) (probe : Option (Option PovScore)) : Recon :=
  let snap := snapshotFromLatestInfos multipv latest_infos mover moveUci
  let played_cp : Int :=
    match snap.played_cp with
    | some c => c
    | none =>
      match probe with
      | some scoreOpt => score_to_cp scoreOpt mover
      | none => 0
  ⟨snap.pvs, snap.best_cp, snap.second_cp, played_cp,
    snap.best_cp - played_cp, snap.best_cp - snap.second_cp,
    decide (100000 ≤ played_cp.natAbs)⟩

/-! ## Boards and the shared task slot

`chess.Board` is modelled by the parts the scheduler reads: the move
stack (moves as UCI strings) and the side to move.  `board.copy` is
value copying, hence the identity here; `board.pop()` drops the last
move and gives the turn back to the other side. -/

/-- The observable part of a `chess.Board`. -/
structure Board where
  move_stack : List String
  turn : Bool
deriving DecidableEq, Repr

/-- `board.pop()`: undo the last move (defined here only on the fields
the scheduler observes; popping an empty stack is handled at the one
call site, inside `start_analayse`). -/
def Board.pop (b : Board) : Board := ⟨b.move_stack.dropLast, !b.turn⟩

/-- The shared task state of `AutoAnalyzer` guarded by `_task_lock`:
`_task_id`, `_before`, `_after`, `_move` and the cancellation events.
Each `threading.Event` ever created is one boolean cell in the
append-only store `events`; the constructor's event is cell 0 and the
fresh event installed when task id `t` is created is cell `t`, so the
current task's event is `events[task_id]` (well-formedness:
`events.length = task_id + 1`).  Events are only ever set, never
cleared, exactly as in the source. -/
structure Slot where
  task_id : Nat
  before : Option Board
  after : Option Board
  move : Option String
  events : List Bool
deriving DecidableEq, Repr

/-- The slot as the constructor leaves it: no task, task id 0, one
untripped event. -/
def initSlot : Slot := ⟨0, none, none, none, [false]⟩

/-- `self._cancel_event.set()`: trip the current task's event. -/
def Slot.setCur (s : Slot) : Slot :=
  { s with events := s.events.set s.task_id true }

/-- Embeds `stop_analyze` (line 239-240). -/
def stop_analyze (s : Slot) : Slot := s.setCur

/-- The locked region of `start_analayse` (lines 153-163): bump the
task id, replace the triple, trip the old event, install a fresh one. -/
def submitTask (s : Slot) (before after : Board) (mv : String) : Slot :=
  ⟨s.task_id + 1, some before, some after, some mv,
    (s.events.set s.task_id true) ++ [false]⟩

/-- Embeds `start_analayse` (lines 136-163).  With `move = none` and an
empty move stack it raises `ValueError("Board has no last move")`
before touching any shared state; with a supplied move and an empty
stack, `before.pop()` raises `IndexError`.  Otherwise `after` is the
given board, `before` the board with its last move undone, and the
locked update runs. -/
def start_analayse (s : Slot) (board : Board) (move : Option String) :
    Except String Slot :=
  match move with
  | none =>
    match board.move_stack.getLast? with
    | none => .error "Board has no last move"
    | some mv => .ok (submitTask s board.pop board mv)
  | some mv =>
    if board.move_stack.isEmpty then .error "pop from empty list"
    else .ok (submitTask s board.pop board mv)

/-- `start_analayse` as the caller experiences it: on success the new
slot, on an exception the message together with the unchanged slot
(the raise in the source happens before any mutation). -/
def runStart (s : Slot) (board : Board) (move : Option String) :
    Slot × Option String :=
  match start_analayse s board move with
  | .ok s1 => (s1, none)
  | .error e => (s, some e)

/-! ## The two-thread system

A small-step model of the submitter (calls to `start_analayse`,
`stop_analyze`, `quit`) interleaved with the worker loop
(`_worker_loop`, lines 242-395) at the granularity of its
statements/engine calls.  Nondeterminism of the environment — whether
the engine spawns, which info arrives next, when a budget's wall clock
expires, whether the probe answers or raises, whether closing the
session raises `EngineTerminatedError` — is resolved by the action
supplied at each step.  Budget durations are abstracted away: only the
number of configured budgets (`Cfg.nSteps = len(time_steps)`) is
observable.  The `on_new_analysis` callback is assumed installed;
invoking it is recorded in the ghost log `pubLog` (tagged with the
worker's task id), mirroring that the callback body is opaque and its
exceptions are swallowed.  `quit`'s final engine shutdown after the
join is not modelled (it touches no state the claims mention). -/

/-- The published record built at lines 351-363.  The floating point
fields `confidence` and `time_used` are omitted from the model. -/
structure MoveAnalysis where
  move : String
  ply : Nat
  best_cp : Int
  played_cp : Int
  delta_cp : Int
  best_gap : Int
  is_mate : Bool
  pvs : List PVEntry
  iteration : Nat
deriving DecidableEq, Repr

/-- Scheduler configuration: `multipv` and the number of configured
time budgets. -/
structure Cfg where
  multipv : Nat
  nSteps : Nat
deriving DecidableEq, Repr

/-- The worker's program counter through one pass of `_worker_loop`.
`drain` is the inner `while True` consuming the stream, `postDrain`
the cancel/stop check at line 326 followed by snapshot building,
`probeWait` the in-flight quick probe of lines 336-342, `publishGuard`
the evaluation of `self.on_new_analysis and not cancel.is_set()`
(line 366), `publishCall` the actual callback invocation (line 368) —
a separate step, since the guard and the call are distinct operations
between which the submitter thread can run. -/
inductive Phase where
  | readTask
  | checkNew
  | ensureEngine
  | openSess
  | budgetCheck (k : Nat)
  | drain (k : Nat)
  | postDrain (k : Nat)
  | probeWait (k : Nat)
  | publishGuard (k : Nat)
  | publishCall (k : Nat)
  | sleepStep (k : Nat)
  | closeSess
  | halted
deriving DecidableEq, Repr

/-- Global state: the shared slot, the stop flag, the engine process
handle (`engineUp` = `_engine is not None`), the worker's locals
(`lastTask`, and the per-task snapshot read of the slot into `tid`,
`wBefore`, `wAfter`, `wMove`), the per-task accumulator `latest`
(`latest_infos`), the result built and awaiting publication, the
worker's program counter, two observability flags for the engine
session, and the ghost publication log. -/
structure Sys where
  slot : Slot
  stopFlag : Bool
  engineUp : Bool
  lastTask : Option Nat
  tid : Nat
  wBefore : Option Board
  wAfter : Option Board
  wMove : Option String
  latest : List (Nat × Info)
  pending : Option MoveAnalysis
  phase : Phase
  sessionOpen : Bool
  probeInFlight : Bool
  pubLog : List (Nat × MoveAnalysis)
deriving DecidableEq, Repr

/-- The system right after the constructor returns. -/
def init : Sys :=
  ⟨initSlot, false, false, none, 0, none, none, none, [], none,
    .readTask, false, false, []⟩

/-- `mover = before.turn` (line 269); `before` is never `None` past the
new-task check, the default is irrelevant. -/
def Sys.mover (s : Sys) : Bool :=
  match s.wBefore with
  | some b => b.turn
  | none => true

/-- `cancel.is_set()` for the worker's local event reference: the event
installed for the task id the worker read. -/
def Sys.trippedAt (s : Sys) (t : Nat) : Bool := s.slot.events.getD t false

/-- `ply = len(after.move_stack)` (line 353). -/
def Sys.wPly (s : Sys) : Nat :=
  match s.wAfter with
  | some b => b.move_stack.length
  | none => 0

/-- Dict assignment `latest_infos[mpv] = info`: replace or append. -/
def dictInsert (k : Nat) (v : Info) : List (Nat × Info) → List (Nat × Info)
  | [] => [(k, v)]
  | (k0, v0) :: rest =>
    if k0 = k then (k, v) :: rest else (k0, v0) :: dictInsert k v rest

/-- Lines 309-315: `info.get("multipv", 1)` sanitized to an index ≥ 1. -/
def sanitizeMultipv : Option Int → Nat
  | none => 1
  | some v => if v < 1 then 1 else v.toNat

/-- Lines 351-363: assemble the `MoveAnalysis` from the snapshot and
the (by now known) played score. -/
def buildResult (snap : Snapshot) (played : Int) (mv : String) (ply : Nat)
    (iter : Nat) : MoveAnalysis :=
  ⟨mv, ply, snap.best_cp, played, snap.best_cp - played,
    snap.best_cp - snap.second_cp, decide (100000 ≤ played.natAbs),
    snap.pvs, iter⟩

/-- Placeholder record (never published from a reachable state: the
guard phase always installs `pending` first). -/
def emptyResult : MoveAnalysis := ⟨"", 0, 0, 0, 0, 0, false, [], 0⟩

/-- Resolution of the worker's nondeterminism at its current phase. -/
inductive WChoice where
  | go
  | ensureOk
  | ensureFail
  | recv (info : Info)
  | stopIter
  | engErr
  | probeRet (r : Option (Option PovScore))
  | closeOk
  | closeFault
  | openOk
  | openFault
deriving DecidableEq, Repr

/-- One statement-level step of the worker thread.  A choice that does
not apply at the current phase leaves the state unchanged (a stutter).
The faithful detail for claim C4 is in `checkNew`: `last_task` is
assigned *before* `_ensure_engine` runs (lines 258-262), so a spawn
failure or a later fault leaves `lastTask = task_id` behind.  The
faithful detail for claim C5 is in `postDrain`: the probe is issued
while `sessionOpen` is still true, because line 339 executes inside the
`with self._engine.analysis(...)` block.  The faithful detail for
claim C1 is the split of line 366-368 into `publishGuard` and
`publishCall`. -/
def wnext (cfg : Cfg) (s : Sys) (c : WChoice) : Sys :=
  match s.phase, c with
  | .readTask, .go =>
    if s.stopFlag then { s with phase := .halted }
    else
      { s with tid := s.slot.task_id, wBefore := s.slot.before,
               wAfter := s.slot.after, wMove := s.slot.move,
               phase := .checkNew }
  | .checkNew, .go =>
    if s.wBefore = none ∨ s.lastTask = some s.tid then
      { s with phase := .readTask }
    else { s with lastTask := some s.tid, phase := .ensureEngine }
  | .ensureEngine, .ensureOk => { s with engineUp := true, phase := .openSess }
  | .ensureEngine, .ensureFail =>
    if s.engineUp then { s with phase := .openSess }
    else { s with phase := .readTask }
  | .openSess, .openOk =>
    { s with sessionOpen := true, latest := [], phase := .budgetCheck 0 }
  | .openSess, .openFault =>
    { s with sessionOpen := false, engineUp := false, phase := .readTask }
  | .budgetCheck k, .go =>
    if cfg.nSteps ≤ k then { s with phase := .closeSess }
    else if s.trippedAt s.tid || s.stopFlag then { s with phase := .closeSess }
    else { s with phase := .drain k }
  | .drain _, .recv info =>
    { s with latest := dictInsert (sanitizeMultipv info.multipv) info s.latest }
  | .drain k, .go => { s with phase := .postDrain k }
  | .drain k, .stopIter =>
    { s with slot := { s.slot with events := s.slot.events.set s.tid true },
             phase := .postDrain k }
  | .drain k, .engErr => { s with phase := .postDrain k }
  | .postDrain k, .go =>
    if s.trippedAt s.tid || s.stopFlag then { s with phase := .closeSess }
    else
      let snap := snapshotFromLatestInfos cfg.multipv s.latest s.mover
        (s.wMove.getD "")
      match snap.played_cp with
      | some c =>
        { s with pending := some (buildResult snap c (s.wMove.getD "") s.wPly k),
                 phase := .publishGuard k }
      | none => { s with probeInFlight := true, phase := .probeWait k }
  | .probeWait k, .probeRet r =>
    let snap := snapshotFromLatestInfos cfg.multipv s.latest s.mover
      (s.wMove.getD "")
    let played : Int :=
      match r with
      | some scoreOpt => score_to_cp scoreOpt s.mover
      | none => 0
    { s with probeInFlight := false,
             pending := some (buildResult snap played (s.wMove.getD "") s.wPly k),
             phase := .publishGuard k }
  | .publishGuard k, .go =>
    if s.trippedAt s.tid then { s with pending := none, phase := .sleepStep k }
    else { s with phase := .publishCall k }
  | .publishCall k, .go =>
    { s with pubLog := s.pubLog ++ [(s.tid, s.pending.getD emptyResult)],
             pending := none, phase := .sleepStep k }
  | .sleepStep k, .go => { s with phase := .budgetCheck (k + 1) }
  | .closeSess, .closeOk => { s with sessionOpen := false, phase := .readTask }
  | .closeSess, .closeFault =>
    { s with sessionOpen := false, engineUp := false, phase := .readTask }
  | _, _ => s

/-- One interleaving step of the whole system: a submitter call (a
failed `start_analayse` leaves the state untouched — the raise happens
before the locked region), a `stop_analyze`, a `quit` request (stop
flag plus cancellation of the current event), or one worker step. -/
inductive Action where
  | submit (b : Board) (m : Option String)
  | stopA
  | quitA
  | w (c : WChoice)
deriving DecidableEq, Repr

/-- The global small-step function. -/
def step (cfg : Cfg) (s : Sys) (a : Action) : Sys :=
  match a with
  | .submit b m =>
    match start_analayse s.slot b m with
    | .ok sl => { s with slot := sl }
    | .error _ => s
  | .stopA => { s with slot := stop_analyze s.slot }
  | .quitA => { s with stopFlag := true, slot := stop_analyze s.slot }
  | .w c => wnext cfg s c

/-- Run a finite interleaving. -/
def run (cfg : Cfg) (s : Sys) (acts : List Action) : Sys :=
  acts.foldl (step cfg) s

/-- The publications a run appends beyond those already in `s.pubLog`
never mention task id `t`. -/
def NoNewPubFor (cfg : Cfg) (t : Nat) (s : Sys) : Prop :=
  ∀ acts : List Action,
    ∀ e ∈ (run cfg s acts).pubLog.drop s.pubLog.length, e.1 ≠ t

/-- Claim C1 as the spec states it: from any reachable state in which
task `t`'s cancellation event has tripped, no further publication
carries `t`. -/
def NoStaleAfterTrip (cfg : Cfg) : Prop :=
  ∀ (acts : List Action) (t : Nat),
    (run cfg init acts).trippedAt t = true →
    NoNewPubFor cfg t (run cfg init acts)

/-- An action is a `start_analayse` call. -/
def Action.isSubmit : Action → Bool
  | .submit _ _ => true
  | _ => false

/-- The worker is at the callback-invocation statement. -/
def Phase.isPub : Phase → Bool
  | .publishCall _ => true
  | _ => false

/-- The state predicate behind the amended supersession claim: task
`t`'s event has tripped and the worker is not sitting at the callback
invocation for `t` (the one window in which a stale result can still
go out, because the guard of line 366 was evaluated before the trip). -/
def SafeFor (t : Nat) (s : Sys) : Prop :=
  s.trippedAt t = true ∧ (s.phase.isPub = true → s.tid ≠ t)

/-- The state shape the worker is stuck in once it has consumed a task
(`last_task = task_id`) and idles: it polls, sees no new id, and
sleeps, forever, until a fresh submission bumps the id. -/
def IdleConsumed (s : Sys) : Prop :=
  s.lastTask = some s.slot.task_id ∧
  (s.phase = .readTask ∨ (s.phase = .checkNew ∧ s.tid = s.slot.task_id) ∨
    s.phase = .halted)

/-! ## Concrete instances used by the claims -/

/-- A configuration with `multipv = 4` and three budgets. -/
def cfg0 : Cfg := ⟨4, 3⟩

/-- The spec's example snapshot: rank 1 scores 120 with first move
e2e4, rank 2 scores 80 with first move d2d4 (scores relative to the
mover, here White). -/
def specLines : List (Nat × Info) :=
  [(1, ⟨some ⟨.cp 120, true⟩, ["e2e4"], some 1⟩),
   (2, ⟨some ⟨.cp 80, true⟩, ["d2d4"], some 2⟩)]

/-- A snapshot whose best line is a forced mate (sentinel 100000) while
rank 2 is an ordinary 50. -/
def mateBestLines : List (Nat × Info) :=
  [(1, ⟨some ⟨.mateIn 3, true⟩, ["e2e4"], some 1⟩),
   (2, ⟨some ⟨.cp 50, true⟩, ["d2d4"], some 2⟩)]

/-- A snapshot in which rank 2 transiently carries a higher score than
rank 1 (the stream updates ranks at different depths, nothing in the
code orders them by score). -/
def invertedLines : List (Nat × Info) :=
  [(1, ⟨some ⟨.cp 120, true⟩, ["e2e4"], some 1⟩),
   (2, ⟨some ⟨.cp 200, true⟩, ["d2d4"], some 2⟩)]

/-- As `invertedLines` with the played move on rank 1. -/
def reorderedLines : List (Nat × Info) :=
  [(1, ⟨some ⟨.cp 80, true⟩, ["e2e4"], some 1⟩),
   (2, ⟨some ⟨.cp 120, true⟩, ["d2d4"], some 2⟩)]

/-- A snapshot holding only the rank-1 line. -/
def soloLine : List (Nat × Info) :=
  [(1, ⟨some ⟨.cp 120, true⟩, ["e2e4"], some 1⟩)]

/-- Board for task A: position after e2e4 d2d4, Black just moved. -/
def bA : Board := ⟨["e2e4", "d2d4"], false⟩

/-- Board for task B: one move later. -/
def bB : Board := ⟨["e2e4", "d2d4", "g1f3"], true⟩

/-- A streamed info matching task A's played move d2d4. -/
def infoA : Info := ⟨some ⟨.cp 80, true⟩, ["d2d4"], some 1⟩

/-- A streamed info whose line does not start with g1f3. -/
def infoB : Info := ⟨some ⟨.cp 120, true⟩, ["e2e4"], some 1⟩

/-- Interleaving for the supersession counterexample: submit task A
(id 1), let the worker reach the callback invocation for A's first
budget — the guard of line 366 already passed — and then submit task B
(id 2), which trips A's event.  The worker's next step still publishes
A's result. -/
def staleTrace : List Action :=
  [.submit bA none, .w .go, .w .go, .w .ensureOk, .w .openOk, .w .go,
   .w (.recv infoA), .w .go, .w .go, .w .go, .submit bB none]

/-- The state at the end of `staleTrace`. -/
def staleState : Sys := run cfg0 init staleTrace

/-- Interleaving reaching an in-flight probe: the played move g1f3
matches no streamed line, so after the first budget the worker issues
the quick probe — inside the still-open streaming session. -/
def probeTrace : List Action :=
  [.submit bB none, .w .go, .w .go, .w .ensureOk, .w .openOk, .w .go,
   .w (.recv infoB), .w .go, .w .go]

/-- The state at the end of `probeTrace`. -/
def probeState : Sys := run cfg0 init probeTrace

/-- Interleaving for the engine-failure claim: submit task A (id 1),
the worker consumes it (`last_task := 1`, line 258) and then
`_ensure_engine` raises — the spawn failed. -/
def engineFailTrace : List Action :=
  [.submit bA none, .w .go, .w .go, .w .ensureFail]

/-- The state right after the failed spawn. -/
def engineFailState : Sys := run cfg0 init engineFailTrace

/-- What one successful `start_analayse` call guarantees (claim C6):
the task id strictly increases, the stored triple is replaced by
(prior = board minus its last move, resulting = board, the played
move), the previous task's event is tripped, the event installed for
the new id is fresh and untripped, the store invariant is preserved,
already-tripped events stay tripped — and (last conjunct) no operation
of the whole system ever clears a tripped event. -/
def SubmitContract (sl : Slot) (b : Board) (m : Option String) (sl1 : Slot) :
    Prop :=
  sl1.task_id = sl.task_id + 1 ∧
  sl1.before = some b.pop ∧
  sl1.after = some b ∧
  (∃ mv, sl1.move = some mv ∧
    (m = some mv ∨ (m = none ∧ b.move_stack.getLast? = some mv))) ∧
  sl1.events.getD sl.task_id false = true ∧
  sl1.events.getD sl1.task_id false = false ∧
  sl1.events.length = sl1.task_id + 1 ∧
  (∀ i, sl.events.getD i false = true → sl1.events.getD i false = true) ∧
  (∀ (cfg : Cfg) (s : Sys) (a : Action) (i : Nat),
    s.slot.events.getD i false = true →
    (step cfg s a).slot.events.getD i false = true)

/-- The slot produced by submitting task A from the fresh analyzer. -/
def submittedA : Slot := submitTask initSlot bA.pop bA "d2d4"

/-! ## Helper lemmas: the event store only ever gains trips -/

lemma getD_true_lt (l : List Bool) (i : Nat) (h : l.getD i false = true) :
    i < l.length := by
  by_contra hge
  rw [List.getD_eq_default _ _ (Nat.le_of_not_lt hge)] at h
  exact Bool.false_ne_true h

lemma getD_true_set (l : List Bool) (j i : Nat) (h : l.getD i false = true) :
    (l.set j true).getD i false = true := by
  have hi := getD_true_lt l i h
  rw [List.getD_eq_getElem _ _ hi] at h
  have hi2 : i < (l.set j true).length := by simpa using hi
  rw [List.getD_eq_getElem _ _ hi2]
  by_cases hji : j = i
  · subst hji; simp
  · rw [List.getElem_set_ne hji]; exact h

lemma getD_true_append (l l2 : List Bool) (i : Nat)
    (h : l.getD i false = true) : (l ++ l2).getD i false = true := by
  have hi := getD_true_lt l i h
  rw [List.getD_eq_getElem _ _ hi] at h
  have hi2 : i < (l ++ l2).length := by simp; omega
  rw [List.getD_eq_getElem _ _ hi2, List.getElem_append_left hi]
  exact h

lemma setCur_events_mono (sl : Slot) (i : Nat)
    (h : sl.events.getD i false = true) :
    sl.setCur.events.getD i false = true := by
  unfold Slot.setCur
  exact getD_true_set _ _ _ h

lemma submitTask_events_mono (sl : Slot) (bf af : Board) (mv : String)
    (i : Nat) (h : sl.events.getD i false = true) :
    (submitTask sl bf af mv).events.getD i false = true := by
  unfold submitTask
  exact getD_true_append _ _ _ (getD_true_set _ _ _ h)

lemma start_analayse_events_mono (sl sl1 : Slot) (b : Board)
    (m : Option String) (h : start_analayse sl b m = .ok sl1) (i : Nat)
    (ht : sl.events.getD i false = true) :
    sl1.events.getD i false = true := by
  unfold start_analayse at h
  cases m with
  | none =>
    cases hL : b.move_stack.getLast? with
    | none => rw [hL] at h; exact absurd h (by simp)
    | some mv =>
      rw [hL] at h
      cases h
      exact submitTask_events_mono _ _ _ _ _ ht
  | some mv =>
    by_cases hE : b.move_stack.isEmpty <;> simp [hE] at h
    rw [← h]
    exact submitTask_events_mono _ _ _ _ _ ht

/-- A worker step either leaves the shared slot alone, or (only the
`StopIteration` handler, line 301) trips the worker's local event. -/
lemma wnext_slot (cfg : Cfg) (s : Sys) (c : WChoice) :
    (wnext cfg s c).slot = s.slot ∨
    (wnext cfg s c).slot =
      { s.slot with events := s.slot.events.set s.tid true } := by
  rcases s with ⟨slot, stopF, engUp, lastT, tid, wB, wA, wM, lat, pend, ph, sO, pIF, pL⟩
  cases ph <;> cases c
  all_goals try simp only [wnext]
  all_goals repeat' split
  all_goals first | exact Or.inl rfl | exact Or.inr rfl | exact Or.inl trivial | exact Or.inr trivial

/-- No operation of the system ever clears a tripped event: every
`threading.Event` in the program is only ever `set`. -/
lemma events_mono_step (cfg : Cfg) (s : Sys) (a : Action) (i : Nat)
    (h : s.slot.events.getD i false = true) :
    (step cfg s a).slot.events.getD i false = true := by
  cases a with
  | submit b m =>
    simp only [step]
    cases hsa : start_analayse s.slot b m with
    | ok sl => exact start_analayse_events_mono _ _ _ _ hsa _ h
    | error e => exact h
  | stopA => exact setCur_events_mono _ _ h
  | quitA => exact setCur_events_mono _ _ h
  | w c =>
    rcases wnext_slot cfg s c with hs | hs <;> rw [step, hs]
    · exact h
    · exact getD_true_set _ _ _ h

/-- Everything `submitTask` (the locked region of `start_analayse`)
guarantees about the slot it produces, under the store invariant that
the current event sits at the end of the store. -/
lemma submitTask_contract (sl : Slot) (bf af : Board) (mv : String)
    (hwf : sl.events.length = sl.task_id + 1) :
    (submitTask sl bf af mv).task_id = sl.task_id + 1 ∧
    (submitTask sl bf af mv).before = some bf ∧
    (submitTask sl bf af mv).after = some af ∧
    (submitTask sl bf af mv).move = some mv ∧
    (submitTask sl bf af mv).events.getD sl.task_id false = true ∧
    (submitTask sl bf af mv).events.getD (sl.task_id + 1) false = false ∧
    (submitTask sl bf af mv).events.length = (sl.task_id + 1) + 1 := by
  refine ⟨rfl, rfl, rfl, rfl, ?_, ?_, ?_⟩
  · show ((sl.events.set sl.task_id true) ++ [false]).getD sl.task_id false = true
    have h1 : sl.task_id < (sl.events.set sl.task_id true).length := by
      simp [hwf]
    have h2 : sl.task_id < ((sl.events.set sl.task_id true) ++ [false]).length := by
      simp [hwf]; omega
    rw [List.getD_eq_getElem _ _ h2, List.getElem_append_left h1,
      List.getElem_set_self]
  · show ((sl.events.set sl.task_id true) ++ [false]).getD (sl.task_id + 1) false = false
    have hlen : (sl.events.set sl.task_id true).length = sl.task_id + 1 := by
      simp [hwf]
    have h2 : sl.task_id + 1 < ((sl.events.set sl.task_id true) ++ [false]).length := by
      simp [hwf]
    rw [List.getD_eq_getElem _ _ h2, List.getElem_append_right (by omega)]
    simp [hlen]
  · simp [submitTask, hwf]

/-- A lookup in the one-entry dict fails off its key. -/
lemma lookup_solo_ne (info : Info) (k : Nat) (hk : k ≠ 1) :
    ([((1 : Nat), info)]).lookup k = none := by
  have : (k == 1) = false := by simp [hk]
  simp [List.lookup, this]

/-- A function vanishing off 1 filterMaps ranges starting at 2 to
nothing. -/
lemma filterMap_range_ge_two (f : Nat → Option PVEntry)
    (hf : ∀ k, k ≠ 1 → f k = none) :
    ∀ (n s : Nat), 2 ≤ s → (List.range' s n).filterMap f = [] := by
  intro n
  induction n with
  | zero => intro s _; simp
  | succ n ih =>
    intro s hs
    rw [List.range'_succ, List.filterMap_cons, hf s (by omega)]
    exact ih (s + 1) (by omega)

/-- With only the rank-1 line present, the snapshot collapses:
`second_cp` equals `best_cp`. -/
lemma snapshot_solo_second (mpv : Nat) (info : Info) (mover : Bool)
    (mv : String) (h1 : 1 ≤ mpv) :
    (snapshotFromLatestInfos mpv [(1, info)] mover mv).second_cp =
    (snapshotFromLatestInfos mpv [(1, info)] mover mv).best_cp := by
  obtain ⟨m, rfl⟩ : ∃ m, mpv = m + 1 := ⟨mpv - 1, by omega⟩
  unfold snapshotFromLatestInfos
  rw [List.range'_succ, List.filterMap_cons]
  rw [show ([((1 : Nat), info)]).lookup 1 = some info by simp [List.lookup]]
  rw [filterMap_range_ge_two _ (fun k hk => by rw [lookup_solo_ne info k hk]) m 2 le_rfl]
  simp

/-- A worker step appends to the publication log only from the
callback-invocation phase, and then exactly one record tagged with the
worker's task id. -/
lemma wnext_pubLog (cfg : Cfg) (s : Sys) (c : WChoice) :
    (wnext cfg s c).pubLog = s.pubLog ∨
    ((wnext cfg s c).pubLog =
        s.pubLog ++ [(s.tid, s.pending.getD emptyResult)] ∧
      s.phase.isPub = true) := by
  rcases s with ⟨slot, stopF, engUp, lastT, tid, wB, wA, wM, lat, pend, ph, sO, pIF, pL⟩
  cases ph <;> cases c
  all_goals try simp only [wnext]
  all_goals repeat' split
  all_goals first
    | exact Or.inl rfl
    | exact Or.inl trivial
    | exact Or.inr ⟨rfl, rfl⟩
    | exact Or.inr ⟨trivial, rfl⟩
    | exact Or.inr ⟨rfl, trivial⟩
    | (right; rfl)
    | (right; trivial)

/-- The only way a worker step lands on the callback-invocation phase
is to have been there already (an interleaved stutter) or to have just
passed the guard of line 366 with the local event still untripped; in
either case the local task id is unchanged. -/
lemma wnext_phase_tid (cfg : Cfg) (s : Sys) (c : WChoice) :
    (wnext cfg s c).phase.isPub = false ∨
    ((wnext cfg s c).tid = s.tid ∧
      (s.phase.isPub = true ∨ s.trippedAt s.tid = false)) := by
  rcases s with ⟨slot, stopF, engUp, lastT, tid, wB, wA, wM, lat, pend, ph, sO, pIF, pL⟩
  cases ph <;> cases c
  all_goals try simp only [wnext]
  all_goals repeat' split
  all_goals first
    | exact Or.inl rfl
    | exact Or.inl trivial
    | exact Or.inr ⟨rfl, Or.inl rfl⟩
    | exact Or.inr ⟨rfl, Or.inl trivial⟩
    | exact Or.inr ⟨trivial, Or.inl rfl⟩
    | (rename_i hg; exact Or.inr ⟨rfl, Or.inr (by simpa using hg)⟩)
    | (rename_i hg; exact Or.inr ⟨trivial, Or.inr (by simpa using hg)⟩)

/-- One system step out of a state satisfying `SafeFor t` stays in
`SafeFor t` and publishes nothing for `t`. -/
lemma safe_step (cfg : Cfg) (t : Nat) (s : Sys) (a : Action)
    (h : SafeFor t s) :
    SafeFor t (step cfg s a) ∧
    ∃ l, (step cfg s a).pubLog = s.pubLog ++ l ∧ ∀ e ∈ l, e.1 ≠ t := by
  obtain ⟨h1, h2⟩ := h
  have htr : (step cfg s a).trippedAt t = true :=
    events_mono_step cfg s a t h1
  cases a with
  | submit b m =>
    refine ⟨⟨htr, ?_⟩, [], ?_, by simp⟩ <;>
      simp only [step] <;> cases hsa : start_analayse s.slot b m
    · exact h2
    · exact h2
    · simp
    · simp
  | stopA => exact ⟨⟨htr, h2⟩, [], by simp [step, stop_analyze], by simp⟩
  | quitA => exact ⟨⟨htr, h2⟩, [], by simp [step, stop_analyze], by simp⟩
  | w c =>
    refine ⟨⟨htr, ?_⟩, ?_⟩
    · intro hP
      rcases wnext_phase_tid cfg s c with hF | ⟨htid, hOr⟩
      · rw [show (step cfg s (.w c)).phase = (wnext cfg s c).phase from rfl,
          hF] at hP
        exact absurd hP (by simp)
      · rw [show (step cfg s (.w c)).tid = (wnext cfg s c).tid from rfl, htid]
        rcases hOr with hpub | hfalse
        · exact h2 hpub
        · intro hEq
          rw [hEq, h1] at hfalse
          exact absurd hfalse (by simp)
    · rcases wnext_pubLog cfg s c with hp | ⟨hp, hpub⟩
      · exact ⟨[], by simpa [step] using hp, by simp⟩
      · exact ⟨[(s.tid, s.pending.getD emptyResult)],
          by simpa [step] using hp,
          by simpa using h2 hpub⟩

/-- A whole run out of a `SafeFor t` state stays safe and publishes
nothing for `t`. -/
lemma safe_run (cfg : Cfg) (t : Nat) (acts : List Action) :
    ∀ s, SafeFor t s →
      SafeFor t (run cfg s acts) ∧
      ∃ l, (run cfg s acts).pubLog = s.pubLog ++ l ∧ ∀ e ∈ l, e.1 ≠ t := by
  induction acts with
  | nil => exact fun s h => ⟨h, [], by simp [run], by simp⟩
  | cons a acts ih =>
    intro s h
    obtain ⟨hS1, l2, he2, hl2⟩ := safe_step cfg t s a h
    obtain ⟨hS2, l3, he3, hl3⟩ := ih (step cfg s a) hS1
    refine ⟨hS2, l2 ++ l3, ?_, ?_⟩
    · rw [show run cfg s (a :: acts) = run cfg (step cfg s a) acts from rfl,
        he3, he2, List.append_assoc]
    · intro e he
      rcases List.mem_append.mp he with hm | hm
      · exact hl2 e hm
      · exact hl3 e hm

/-- A worker step from an idle state with the current task already
consumed goes nowhere: it keeps polling (`readTask` ↔ `checkNew`),
possibly halts on the stop flag, and publishes nothing. -/
lemma idle_wstep (cfg : Cfg) (s : Sys) (c : WChoice) (h : IdleConsumed s) :
    IdleConsumed (wnext cfg s c) ∧ (wnext cfg s c).pubLog = s.pubLog := by
  obtain ⟨hl, hph⟩ := h
  rcases s with ⟨slot, stopF, engUp, lastT, tid, wB, wA, wM, lat, pend, ph, sO, pIF, pL⟩
  simp only at hl hph
  rcases hph with hph | ⟨hph, htid⟩ | hph <;> subst hph <;> cases c
  all_goals try exact ⟨⟨hl, by simp [IdleConsumed]⟩, rfl⟩
  all_goals try exact ⟨⟨hl, Or.inl rfl⟩, rfl⟩
  all_goals try exact ⟨⟨hl, Or.inr (Or.inl ⟨rfl, htid⟩)⟩, rfl⟩
  all_goals try exact ⟨⟨hl, Or.inr (Or.inr rfl)⟩, rfl⟩
  -- remaining: the two genuine transitions out of readTask and checkNew
  all_goals simp only [wnext]
  all_goals repeat' split
  all_goals first
    | exact ⟨⟨hl, Or.inr (Or.inr rfl)⟩, rfl⟩
    | exact ⟨⟨hl, Or.inr (Or.inl ⟨rfl, rfl⟩)⟩, rfl⟩
    | exact ⟨⟨hl, Or.inl rfl⟩, rfl⟩
    | (rename_i hn; exact absurd (Or.inr (by rw [hl, htid])) hn)

/-- Any non-submitting step preserves the consumed-idle deadlock and
its publication log. -/
lemma idle_step (cfg : Cfg) (s : Sys) (a : Action) (h : IdleConsumed s)
    (hns : a.isSubmit = false) :
    IdleConsumed (step cfg s a) ∧ (step cfg s a).pubLog = s.pubLog := by
  obtain ⟨hl, hph⟩ := h
  cases a with
  | submit b m => simp [Action.isSubmit] at hns
  | stopA => exact ⟨⟨hl, hph⟩, rfl⟩
  | quitA => exact ⟨⟨hl, hph⟩, rfl⟩
  | w c => exact idle_wstep cfg s c ⟨hl, hph⟩

/-- Whole-run version: while no new task is submitted, a consumed-idle
worker never publishes anything. -/
lemma idle_run (cfg : Cfg) (acts : List Action) :
    ∀ s, IdleConsumed s → (∀ a ∈ acts, a.isSubmit = false) →
      IdleConsumed (run cfg s acts) ∧ (run cfg s acts).pubLog = s.pubLog := by
  induction acts with
  | nil => exact fun s h _ => ⟨h, rfl⟩
  | cons a acts ih =>
    intro s h hns
    obtain ⟨h1, hp1⟩ := idle_step cfg s a h (hns a (by simp))
    obtain ⟨h2, hp2⟩ := ih (step cfg s a) h1 (fun x hx => hns x (by simp [hx]))
    exact ⟨h2, by rw [show run cfg s (a :: acts) = run cfg (step cfg s a) acts from rfl, hp2, hp1]⟩

/-! ## Claim theorems: the pure reconciler and the task slot -/

/-- C7: on the spec's example snapshot (rank 1: 120 via e2e4, rank 2:
80 via d2d4) with played move d2d4, the reconciler yields best = 120,
runner-up = 80, gap = 40, played = 80, delta = 40 and no mate flag. -/
theorem c7_reconciliation_example :
    (reconcileStep 4 specLines true "d2d4" none).best_cp = 120 ∧
    (reconcileStep 4 specLines true "d2d4" none).second_cp = 80 ∧
    (reconcileStep 4 specLines true "d2d4" none).best_gap = 40 ∧
    (reconcileStep 4 specLines true "d2d4" none).played_cp = 80 ∧
    (reconcileStep 4 specLines true "d2d4" none).delta_cp = 40 ∧
    (reconcileStep 4 specLines true "d2d4" none).is_mate = false := by
  decide

/-- C8: on the same snapshot with played move g1f3, which matches no
line, the snapshot scan yields no played score and the reconciler falls
back to the quick-probe score 65, giving played = 65 and delta = 55. -/
theorem c8_probe_fallback :
    (snapshotFromLatestInfos 4 specLines true "g1f3").played_cp = none ∧
    (reconcileStep 4 specLines true "g1f3"
      (some (some ⟨.cp 65, true⟩))).played_cp = 65 ∧
    (reconcileStep 4 specLines true "g1f3"
      (some (some ⟨.cp 65, true⟩))).delta_cp = 55 := by
  decide

/-- C2 counterexample: a best score at the mate sentinel (100000) with
an ordinary played score of 50 leaves the published mate flag false —
the claimed "abs(best) or abs(played) ≥ sentinel ⇔ mate" equivalence
fails at this input, because line 346 tests only the played score. -/
theorem c2_counterexample :
    (reconcileStep 4 mateBestLines true "d2d4" none).best_cp = 100000 ∧
    (reconcileStep 4 mateBestLines true "d2d4" none).played_cp = 50 ∧
    (reconcileStep 4 mateBestLines true "d2d4" none).is_mate = false ∧
    ¬((reconcileStep 4 mateBestLines true "d2d4" none).is_mate = true ↔
      (100000 ≤ (reconcileStep 4 mateBestLines true "d2d4" none).best_cp.natAbs ∨
        100000 ≤ (reconcileStep 4 mateBestLines true "d2d4" none).played_cp.natAbs)) := by
  decide

/-- C2 (amended): the published mate flag is true exactly when the
absolute value of the reconciled played score meets or exceeds the
mate-sentinel magnitude 100000; the best score's magnitude plays no
part. -/
theorem c2_mate_flag_from_played_only (multipv : Nat)
    (latest : List (Nat × Info)) (mover : Bool) (mv : String)
    (probe : Option (Option PovScore)) :
    (reconcileStep multipv latest mover mv probe).is_mate =
      decide (100000 ≤
        (reconcileStep multipv latest mover mv probe).played_cp.natAbs) := rfl

/-- C3 counterexample: with a rank-2 line scoring 200 against a rank-1
best of 120 and the played move on rank 2, delta is −80 — negative, so
it is not `max(0, best − played)`; and with the played score genuinely
unknown (no matching line, probe unavailable) delta is 120 — the full
best score, not the claimed 0. -/
theorem c3_counterexample :
    (reconcileStep 4 invertedLines true "d2d4" none).delta_cp = -80 ∧
    (reconcileStep 4 invertedLines true "d2d4" none).delta_cp < 0 ∧
    (snapshotFromLatestInfos 4 soloLine true "g1f3").played_cp = none ∧
    (reconcileStep 4 soloLine true "g1f3" none).delta_cp = 120 := by
  decide

/-- C3 (amended): delta is always the unclamped difference
`best − played` (and so can go negative); when the played move matches
no line and the probe is unavailable, the played score is taken as 0,
making delta equal to the best score. -/
theorem c3_delta_unclamped (multipv : Nat) (latest : List (Nat × Info))
    (mover : Bool) (mv : String) (probe : Option (Option PovScore)) :
    (reconcileStep multipv latest mover mv probe).delta_cp =
      (reconcileStep multipv latest mover mv probe).best_cp -
      (reconcileStep multipv latest mover mv probe).played_cp ∧
    ((snapshotFromLatestInfos multipv latest mover mv).played_cp = none →
      probe = none →
      (reconcileStep multipv latest mover mv probe).played_cp = 0 ∧
      (reconcileStep multipv latest mover mv probe).delta_cp =
        (reconcileStep multipv latest mover mv probe).best_cp) := by
  refine ⟨rfl, fun h1 h2 => ?_⟩
  subst h2
  refine ⟨?_, ?_⟩ <;> simp [reconcileStep, h1]

/-- C3 witness: the amended statement evaluated where the played move
is absent from the solo-line snapshot and the probe raised. -/
theorem c3_witness :
    (snapshotFromLatestInfos 4 soloLine true "g1f3").played_cp = none ∧
    ((reconcileStep 4 soloLine true "g1f3" none).played_cp = 0 ∧
      (reconcileStep 4 soloLine true "g1f3" none).delta_cp =
        (reconcileStep 4 soloLine true "g1f3" none).best_cp) :=
  ⟨by decide, (c3_delta_unclamped 4 soloLine true "g1f3" none).2 (by decide) rfl⟩

/-- C9 counterexample: nothing orders the snapshot's ranks by score, so
with rank 1 at 80 and rank 2 at 120 the gap is −40: the claimed
"gap ≥ 0 for every snapshot" fails. -/
theorem c9_counterexample :
    (reconcileStep 4 reorderedLines true "e2e4" none).best_gap = -40 ∧
    (reconcileStep 4 reorderedLines true "e2e4" none).best_gap < 0 := by
  decide

/-- C9 (amended): gap is always `best − runner_up` (negative whenever a
lower rank transiently outscores rank 1), and with only the rank-1 line
present the runner-up collapses to the best score and the gap to 0. -/
theorem c9_gap_and_single_line (multipv : Nat) (info : Info) (mover : Bool)
    (mv : String) (probe : Option (Option PovScore)) (h1 : 1 ≤ multipv) :
    (∀ (l : List (Nat × Info)),
      (reconcileStep multipv l mover mv probe).best_gap =
        (reconcileStep multipv l mover mv probe).best_cp -
        (reconcileStep multipv l mover mv probe).second_cp) ∧
    (reconcileStep multipv [(1, info)] mover mv probe).second_cp =
      (reconcileStep multipv [(1, info)] mover mv probe).best_cp ∧
    (reconcileStep multipv [(1, info)] mover mv probe).best_gap = 0 := by
  have hs := snapshot_solo_second multipv info mover mv h1
  refine ⟨fun l => rfl, hs, ?_⟩
  show (snapshotFromLatestInfos multipv [(1, info)] mover mv).best_cp -
    (snapshotFromLatestInfos multipv [(1, info)] mover mv).second_cp = 0
  rw [hs, sub_self]

/-- C9 witness: the amended statement evaluated on the solo-line
snapshot at multipv 4. -/
theorem c9_witness :
    (1 : Nat) ≤ 4 ∧
    ((reconcileStep 4 soloLine true "e2e4" none).second_cp =
        (reconcileStep 4 soloLine true "e2e4" none).best_cp ∧
      (reconcileStep 4 soloLine true "e2e4" none).best_gap = 0) :=
  ⟨by decide,
    (c9_gap_and_single_line 4 ⟨some ⟨.cp 120, true⟩, ["e2e4"], some 1⟩ true
      "e2e4" none (by decide)).2⟩

/-- C6: a successful `start_analayse` call strictly increments the task
id, replaces the stored triple, trips the previous task's event,
installs a fresh untripped event for the new id — and no operation of
the system ever un-trips a tripped event. -/
theorem c6_submit_atomicity (sl : Slot) (b : Board) (m : Option String)
    (sl1 : Slot) (hwf : sl.events.length = sl.task_id + 1)
    (h : start_analayse sl b m = .ok sl1) :
    SubmitContract sl b m sl1 := by
  have hmain : ∃ mv, sl1 = submitTask sl b.pop b mv ∧
      (m = some mv ∨ (m = none ∧ b.move_stack.getLast? = some mv)) := by
    unfold start_analayse at h
    cases m with
    | none =>
      cases hL : b.move_stack.getLast? with
      | none => rw [hL] at h; exact absurd h (by simp)
      | some mv =>
        rw [hL] at h
        cases h
        exact ⟨mv, rfl, Or.inr ⟨rfl, rfl⟩⟩
    | some mv =>
      by_cases hE : b.move_stack.isEmpty <;> simp [hE] at h
      exact ⟨mv, h.symm, Or.inl rfl⟩
  obtain ⟨mv, rfl, hmv⟩ := hmain
  obtain ⟨h1, h2, h3, h4, h5, h6, h7⟩ := submitTask_contract sl b.pop b mv hwf
  refine ⟨h1, h2, h3, ⟨mv, h4, hmv⟩, h5, ?_, ?_, ?_, ?_⟩
  · rw [h1]; exact h6
  · rw [h1]; exact h7
  · intro i hi; exact submitTask_events_mono _ _ _ _ _ hi
  · exact events_mono_step

/-- C6 witness: the contract evaluated on the very first submission. -/
theorem c6_witness :
    initSlot.events.length = initSlot.task_id + 1 ∧
    start_analayse initSlot bA none = Except.ok submittedA ∧
    SubmitContract initSlot bA none submittedA :=
  ⟨by decide, rfl,
    c6_submit_atomicity initSlot bA none submittedA (by decide) rfl⟩

/-- C10: calling `start_analayse` with no move on a board with an empty
move stack raises `ValueError("Board has no last move")` and leaves the
task state untouched: the id is not incremented, the triple is not
replaced, no event is tripped. -/
theorem c10_empty_stack_value_error (sl : Slot) (b : Board)
    (h : b.move_stack = []) :
    runStart sl b none = (sl, some "Board has no last move") := by
  simp [runStart, start_analayse, h]

/-- C10 witness: the precondition evaluated on the fresh analyzer and
an initial board. -/
theorem c10_witness :
    (⟨[], true⟩ : Board).move_stack = [] ∧
    runStart initSlot ⟨[], true⟩ none =
      (initSlot, some "Board has no last move") :=
  ⟨rfl, c10_empty_stack_value_error initSlot ⟨[], true⟩ rfl⟩

/-! ## Claim theorems: the two-thread scheduler -/

/-- C1 counterexample: the claim "no result for a task is published
after its cancellation signal has tripped" fails.  Along `staleTrace`
the worker passes the publish guard for task 1, then task 2 is
submitted (tripping task 1's event), and the worker's next step still
delivers task 1's result — one stale publication after supersession. -/
theorem c1_counterexample : ¬ NoStaleAfterTrip cfg0 := by
  intro h
  have h2 := h staleTrace 1 (by decide) [Action.w .go]
  revert h2
  decide

/-- C1 (amended): once task `t`'s signal has tripped, the worker
publishes no further result for `t` from any state in which it is not
already sitting at the callback invocation for `t`; equivalently, at
most the single in-flight publication whose guard was evaluated before
the trip can still be delivered, and nothing for `t` after that. -/
theorem c1_no_publish_after_observed_trip (cfg : Cfg) (t : Nat) (s : Sys)
    (h1 : s.trippedAt t = true)
    (h2 : s.phase.isPub = true → s.tid ≠ t) :
    NoNewPubFor cfg t s := by
  intro acts e he
  obtain ⟨-, l, heq, hl⟩ := safe_run cfg t acts s ⟨h1, h2⟩
  rw [heq, List.drop_left] at he
  exact hl e he

/-- C1 witness: the amended statement evaluated right after a
`stop_analyze` trips task 1's event while the worker is still polling. -/
theorem c1_witness :
    (run cfg0 init [Action.submit bA none, Action.stopA]).trippedAt 1 = true ∧
    NoNewPubFor cfg0 1 (run cfg0 init [Action.submit bA none, Action.stopA]) :=
  ⟨by decide,
    c1_no_publish_after_observed_trip cfg0 1
      (run cfg0 init [Action.submit bA none, Action.stopA])
      (by decide) (by decide)⟩

/-- C4: engine-failure recovery fails — the task *is* lost.  Line 258
records `last_task = task_id` before `_ensure_engine` runs, so after a
spawn failure (`engineFailTrace`) the worker idles: unless the caller
submits anew, no continuation of the system ever publishes anything,
contradicting the claim that the same task is retried and eventually
produces results. -/
theorem c4_task_lost_on_engine_unavailable :
    engineFailState.lastTask = some engineFailState.slot.task_id ∧
    engineFailState.phase = Phase.readTask ∧
    engineFailState.pubLog = [] ∧
    ∀ acts : List Action, (∀ a ∈ acts, a.isSubmit = false) →
      (run cfg0 engineFailState acts).pubLog = [] := by
  refine ⟨by decide, by decide, by decide, fun acts hns => ?_⟩
  have h : IdleConsumed engineFailState := ⟨by decide, Or.inl (by decide)⟩
  obtain ⟨-, hp⟩ := idle_run cfg0 acts engineFailState h hns
  rw [hp]
  decide

/-- C4 witness: even granting the worker further polls and a now
healthy engine, nothing is published after the failed spawn. -/
theorem c4_witness :
    (∀ a ∈ [Action.w WChoice.go, Action.w WChoice.go,
        Action.w WChoice.ensureOk, Action.w WChoice.openOk],
      a.isSubmit = false) ∧
    (run cfg0 engineFailState [Action.w WChoice.go, Action.w WChoice.go,
      Action.w WChoice.ensureOk, Action.w WChoice.openOk]).pubLog = [] :=
  ⟨by decide,
    c4_task_lost_on_engine_unavailable.2.2.2 _ (by decide)⟩

/-- C5: probe/stream sequencing is violated.  `probeState` is reachable
(it is, by definition, the state after running `probeTrace` from the
fresh analyzer) and has the streaming session open *and* the quick
probe in flight simultaneously: line 339 issues `engine.analyse` inside
the `with engine.analysis(...)` block. -/
theorem c5_probe_during_open_session :
    probeState.sessionOpen = true ∧
    probeState.probeInFlight = true ∧
    probeState.phase = Phase.probeWait 0 := by
  decide

end AutoAnalyzer
